import Mathlib

/-!
Verification of the sorna manager core (driver factory and backends in
`sorna/driver.py`, event bus and lease-expiry monitor in
`sorna/gateway/events.py`) through a shallow embedding in Lean 4.

Python strings that undergo character-level parsing (redis keys and channel
names) are embedded as `List Char`; strings only compared for equality stay
`String`.  Python dicts are embedded as association lists with the usual
lookup / assign / delete operations.  Exceptions are embedded with
`Except` / `Option`, where `none` marks a point at which the python code
would raise.
-/

/-- Errors the embedded python code can raise.  `keyError k` models a python
`KeyError` on the missing dict key `k`; `nameError n` models a python
`NameError` on the unbound name `n`. -/
inductive PyError where
  | keyError (k : String)
  | nameError (n : String)
  deriving DecidableEq, Repr

/-- Python dict lookup `d[k]` on an association list: first binding wins. -/
def dlookup {α : Type} : List (String × α) → String → Option α
  | [], _ => none
  | (k, v) :: rest, key => if k = key then some v else dlookup rest key

/-- Python dict assignment `d[k] = v`: replace the existing binding, or append
a fresh one. -/
def dinsert {α : Type} : List (String × α) → String → α → List (String × α)
  | [], key, v => [(key, v)]
  | (k, w) :: rest, key, v =>
      if k = key then (k, v) :: rest else (k, w) :: dinsert rest key v

/-- Python dict deletion `del d[k]` (callers check presence first): drop every
binding of the key. -/
def ddelete {α : Type} : List (String × α) → String → List (String × α)
  | [], _ => []
  | (k, w) :: rest, key =>
      if k = key then ddelete rest key else (k, w) :: ddelete rest key

theorem dlookup_dinsert {α : Type} (l : List (String × α)) (key : String) (v : α) :
    dlookup (dinsert l key v) key = some v := by
  induction l with
  | nil => simp [dinsert, dlookup]
  | cons hd tl ih =>
      obtain ⟨k, w⟩ := hd
      by_cases hk : k = key
      · simp [dinsert, dlookup, hk]
      · simp [dinsert, dlookup, hk, ih]

theorem dlookup_ddelete {α : Type} (l : List (String × α)) (key : String) :
    dlookup (ddelete l key) key = none := by
  induction l with
  | nil => simp [ddelete, dlookup]
  | cons hd tl ih =>
      obtain ⟨k, w⟩ := hd
      by_cases hk : k = key
      · simp [ddelete, hk, ih]
      · simp [ddelete, dlookup, hk, ih]

/-! ## Lease-expiry monitor (`sorna/gateway/events.py`, `monitor_redis_events`)

A pub/sub message is a pair of the notification channel name and the expired
key, both embedded at character level since the source parses them with
`split` and `startswith`. -/

/-- One message pulled from the redis pattern subscription: `msg[0]` is the
channel name, `msg[1]` the payload (the expired key). -/
structure Msg where
  channel : List Char
  key : List Char
  deriving DecidableEq, Repr

/-- Python `s.split(sep)` (no limit) on character lists. -/
def pySplit (sep : Char) : List Char → List (List Char)
  | [] => [[]]
  | c :: rest =>
      match pySplit sep rest with
      | [] => [[c]]
      | g :: gs => if c = sep then [] :: g :: gs else (c :: g) :: gs

/-- Python `s.split(sep, 1)`: the part before the first separator, and
optionally everything after it. -/
def pySplitOnce (sep : Char) : List Char → List Char × Option (List Char)
  | [] => ([], none)
  | c :: rest =>
      if c = sep then ([], some rest)
      else
        let r := pySplitOnce sep rest
        (c :: r.1, r.2)

/-- Python `s.startswith(p)` on character lists. -/
def startsWithL : List Char → List Char → Bool
  | [], _ => true
  | _, [] => false
  | p :: ps, c :: cs => p = c && startsWithL ps cs

/-- Observable actions of the monitor task: dispatching an event on the event
bus (`local_dispatch`), and the cleanup calls of the `finally` block. -/
inductive Act where
  | emit (name : String) (tag : String) (inst : List Char)
  | unsubscribe
  | close
  | waitClosed
  deriving DecidableEq, Repr

/-- Body of one loop iteration of `monitor_redis_events` for a received
message: extract the event name from the channel (`split` then index 1, which
raises on a channel without a separator, embedded as `none`), and for an
`expired` notification on a key starting with `shadow:` dispatch exactly one
`instance_terminated` event carrying `agent-lost` and the instance id (the
part of the key after the first colon). -/
def monitorStep (m : Msg) : Option (List Act) :=
  match (pySplit ':' m.channel).get? 1 with
  | none => none
  | some evname =>
      if evname = "expired".toList ∧ startsWithL "shadow:".toList m.key = true then
        match (pySplitOnce ':' m.key).2 with
        | none => none
        | some inst_id => some [Act.emit "instance_terminated" "agent-lost" inst_id]
      else some []

theorem startsWithL_append (p xs : List Char) : startsWithL p (p ++ xs) = true := by
  induction p with
  | nil => simp [startsWithL]
  | cons c cs ih => simp [startsWithL, ih]

theorem pySplitOnce_shadow (inst : List Char) :
    (pySplitOnce ':' ("shadow:".toList ++ inst)).2 = some inst := by
  simp [String.toList, pySplitOnce]

/-- C1: on the expiry channel, a message for key `shadow:<inst>` dispatches
exactly one `instance_terminated` event with payload `agent-lost`, `inst`;
a message whose key does not start with `shadow:` dispatches nothing. -/
theorem C1_monitor_shadow_key (ch inst other : List Char)
    (hch : (pySplit ':' ch).get? 1 = some "expired".toList)
    (hother : startsWithL "shadow:".toList other = false) :
    monitorStep ⟨ch, "shadow:".toList ++ inst⟩ =
      some [Act.emit "instance_terminated" "agent-lost" inst]
    ∧ monitorStep ⟨ch, other⟩ = some [] := by
  simp only [List.get?_eq_getElem?] at hch
  have hsh : "shadow:".toList = ['s', 'h', 'a', 'd', 'o', 'w', ':'] := rfl
  rw [hsh] at hother
  constructor
  · simp [monitorStep, hch, startsWithL, pySplitOnce]
  · simp [monitorStep, hch, hother]

/-- Witness for C1 at the concrete channel `__keyevent@1__:expired`, instance
id `inst-42` and non-shadow key `other:foo`. -/
theorem C1_monitor_shadow_key_witness :
    monitorStep ⟨"__keyevent@1__:expired".toList, "shadow:".toList ++ "inst-42".toList⟩ =
      some [Act.emit "instance_terminated" "agent-lost" "inst-42".toList]
    ∧ monitorStep ⟨"__keyevent@1__:expired".toList, "other:foo".toList⟩ = some [] :=
  C1_monitor_shadow_key "__keyevent@1__:expired".toList "inst-42".toList "other:foo".toList
    (by decide) (by decide)

/-! ## Monitor loop, cancellation and cleanup (`monitor_redis_events`) -/

/-- How the blocking receive of the monitor loop finally terminates: the task
is cancelled at the receive, the subscription channel yields a closed/null
signal (`msg is None`), or the loop body itself raises. -/
inductive Terminal where
  | cancelledAtReceive
  | closedAtReceive
  | bodyError
  deriving DecidableEq, Repr

/-- Outcome of an embedded python block: normal return, a pending
`CancelledError`, or another pending exception. -/
inductive ExcOutcome where
  | normal
  | cancelled
  | error
  deriving DecidableEq, Repr

/-- The `while True` body of `monitor_redis_events`: process the received
messages in order (raising stops the loop), then end according to how the
receive terminates (`break` on a null message, `CancelledError` on
cancellation). -/
def loopBody : List Msg → Terminal → ExcOutcome × List Act
  | [], Terminal.cancelledAtReceive => (ExcOutcome.cancelled, [])
  | [], Terminal.closedAtReceive => (ExcOutcome.normal, [])
  | [], Terminal.bodyError => (ExcOutcome.error, [])
  | m :: rest, t =>
      match monitorStep m with
      | none => (ExcOutcome.error, [])
      | some evs =>
          let r := loopBody rest t
          (r.1, evs ++ r.2)

/-- Embedding of `try: body except CancelledError: pass finally: fin` where
the finalizer itself always succeeds: the finalizer actions run on every exit
path, and a pending cancellation is swallowed. -/
def tryCancelFinally (body : ExcOutcome × List Act) (fin : List Act) :
    ExcOutcome × List Act :=
  (match body.1 with
   | ExcOutcome.cancelled => ExcOutcome.normal
   | o => o,
   body.2 ++ fin)

/-- The cleanup calls of the `finally` block of `monitor_redis_events`:
unsubscribe from the expiry-notification pattern, close the redis connection
and wait for it to be fully closed. -/
def cleanupActs : List Act := [Act.unsubscribe, Act.close, Act.waitClosed]

/-- The monitor task of `monitor_redis_events`, as a function of the messages
received before termination and of how the final receive terminates. -/
def monitor_redis_events (msgs : List Msg) (t : Terminal) : ExcOutcome × List Act :=
  tryCancelFinally (loopBody msgs t) cleanupActs

theorem loopBody_fst (msgs : List Msg) (t : Terminal)
    (hok : ∀ m ∈ msgs, (monitorStep m).isSome) :
    (loopBody msgs t).1 =
      (match t with
       | Terminal.cancelledAtReceive => ExcOutcome.cancelled
       | Terminal.closedAtReceive => ExcOutcome.normal
       | Terminal.bodyError => ExcOutcome.error) := by
  induction msgs with
  | nil => cases t <;> rfl
  | cons m rest ih =>
      have hm : (monitorStep m).isSome := hok m (List.mem_cons_self m rest)
      obtain ⟨evs, hevs⟩ := Option.isSome_iff_exists.mp hm
      have hrest : ∀ x ∈ rest, (monitorStep x).isSome := fun x hx =>
        hok x (List.mem_cons_of_mem m hx)
      simp [loopBody, hevs, ih hrest]

/-- C7: on every exit path of the monitor loop — cancellation, a closed/null
signal, or any other error — the action trace ends with the cleanup sequence
(unsubscribe, close, wait-closed); on the cancellation path (and on the
closed-signal path) the task moreover finishes normally, so the cleanup is
not bypassed by the pending cancellation. -/
theorem C7_monitor_cleanup (msgs : List Msg) (t : Terminal) :
    (∃ pre, (monitor_redis_events msgs t).2 = pre ++ cleanupActs)
    ∧ ((∀ m ∈ msgs, (monitorStep m).isSome) → t = Terminal.cancelledAtReceive →
        (monitor_redis_events msgs t).1 = ExcOutcome.normal)
    ∧ ((∀ m ∈ msgs, (monitorStep m).isSome) → t = Terminal.closedAtReceive →
        (monitor_redis_events msgs t).1 = ExcOutcome.normal) := by
  refine ⟨⟨(loopBody msgs t).2, rfl⟩, ?_, ?_⟩ <;> intro hok ht <;> subst ht <;>
    simp [monitor_redis_events, tryCancelFinally, loopBody_fst _ _ hok]

/-- Witness for C7: a run that receives one shadow-key expiry message and is
then cancelled emits the event, runs the full cleanup sequence and finishes
normally. -/
theorem C7_monitor_cleanup_witness :
    (∃ pre,
      (monitor_redis_events [⟨"__keyevent@1__:expired".toList, "shadow:i1".toList⟩]
        Terminal.cancelledAtReceive).2 = pre ++ cleanupActs)
    ∧ (monitor_redis_events [⟨"__keyevent@1__:expired".toList, "shadow:i1".toList⟩]
        Terminal.cancelledAtReceive).1 = ExcOutcome.normal := by
  refine ⟨(C7_monitor_cleanup _ _).1, (C7_monitor_cleanup _ _).2.1 ?_ rfl⟩
  decide


/-! ## Event bus (`sorna/gateway/events.py`, `EventServer`)

Handlers are opaque callables; only their identity and whether they are
coroutines matter to the dispatcher.  `α` is the type of the application
object passed as first argument, `β` the type of the dispatched argument. -/

/-- An opaque registered callback: a coroutine flag (which selects the
scheduling primitive) and an identity. -/
structure Handler where
  isCoro : Bool
  ident : Nat
  deriving DecidableEq, Repr

/-- The `EventServer` state: the application object and the
`defaultdict(list)` mapping event names to handler lists. -/
structure EventServer (α : Type) where
  app : α
  handlers : List (String × List Handler)
  deriving Repr

/-- Reading `self.handlers[name]` from the `defaultdict(list)`: a missing name
yields the empty list, never an error. -/
def getHandlers (hs : List (String × List Handler)) (name : String) : List Handler :=
  (dlookup hs name).getD []

/-- `EventServer.add_handler`: append the callback to the list registered
under the event name. -/
def add_handler {α : Type} (srv : EventServer α) (name : String) (cb : Handler) :
    EventServer α :=
  { srv with handlers := dinsert srv.handlers name (getHandlers srv.handlers name ++ [cb]) }

/-- A unit of work scheduled by `local_dispatch`: `ensure_future` for a
coroutine handler, `call_soon` for a plain callable; either way the handler is
invoked with the application object and the dispatched argument. -/
inductive Sched (α β : Type) where
  | future (h : Handler) (app : α) (arg : β)
  | callSoon (h : Handler) (app : α) (arg : β)
  deriving DecidableEq, Repr

/-- The branch of `local_dispatch` choosing the scheduling primitive for one
handler. -/
def schedOf {α β : Type} (app : α) (arg : β) (h : Handler) : Sched α β :=
  if h.isCoro then Sched.future h app arg else Sched.callSoon h app arg

/-- `EventServer.local_dispatch`: schedule every handler registered under the
event name, in registration order, each exactly once with the dispatched
argument. -/
def local_dispatch {α β : Type} (srv : EventServer α) (name : String) (arg : β) :
    List (Sched α β) :=
  (getHandlers srv.handlers name).map (schedOf srv.app arg)

/-- C5: registering `h1` then `h2` under a previously unregistered event name
and dispatching that name with argument `x` schedules exactly `h1` then `h2`,
in registration order, each with argument `x`; taking `h1 = h2` shows that a
callback registered twice is scheduled twice per dispatch. -/
theorem C5_dispatch_registration_order {α β : Type} (srv : EventServer α)
    (name : String) (h1 h2 : Handler) (x : β)
    (hfresh : dlookup srv.handlers name = none) :
    local_dispatch (add_handler (add_handler srv name h1) name h2) name x =
      [schedOf srv.app x h1, schedOf srv.app x h2] := by
  simp [local_dispatch, add_handler, getHandlers, hfresh, dlookup_dinsert]

/-- Witness for C5 with a coroutine handler and a plain handler registered on
a fresh server. -/
theorem C5_dispatch_registration_order_witness :
    local_dispatch
      (add_handler (add_handler (EventServer.mk 0 []) "e" ⟨true, 1⟩) "e" ⟨false, 2⟩)
      "e" (7 : Nat) =
      [schedOf 0 7 ⟨true, 1⟩, schedOf 0 7 ⟨false, 2⟩] :=
  C5_dispatch_registration_order (EventServer.mk 0 []) "e" ⟨true, 1⟩ ⟨false, 2⟩ 7 rfl

/-- C6: dispatching an event name with no registered handlers is a no-op: the
name resolves to the empty handler list rather than an error, and nothing is
scheduled. -/
theorem C6_dispatch_no_handlers {α β : Type} (srv : EventServer α)
    (name : String) (x : β)
    (hnone : dlookup srv.handlers name = none) :
    getHandlers srv.handlers name = []
    ∧ local_dispatch srv name x = ([] : List (Sched α β)) := by
  have g : getHandlers srv.handlers name = [] := by
    simp [getHandlers, hnone]
  exact ⟨g, by simp [local_dispatch, g]⟩

/-- Witness for C6: dispatching `instance_terminated` on a server with no
registrations schedules nothing. -/
theorem C6_dispatch_no_handlers_witness :
    getHandlers (EventServer.mk 0 []).handlers "instance_terminated" = []
    ∧ local_dispatch (EventServer.mk 0 []) "instance_terminated" (5 : Nat) =
        ([] : List (Sched Nat Nat)) :=
  C6_dispatch_no_handlers (EventServer.mk 0 []) "instance_terminated" 5 rfl

/-! ## Drivers (`sorna/driver.py`)

The `Kernel` record comes from `sorna.structs`, which is not part of the
observed source tree; it is modelled from the spec as a record carrying the
kernel identifier, the owning instance, the agent socket address and a
driver-private handle. -/

/-- A provisioned compute host, as consumed by `create_kernel`: its network
address and its backend-specific control port. -/
structure Instance where
  ip : String
  docker_port : Nat
  deriving DecidableEq, Repr

/-- Modelled from the spec: `sorna.structs.Kernel` (module not under the
observed source) is a record with a globally unique identifier, a back
reference to the owning instance, an agent socket address and a
driver-private opaque handle. -/
structure Kernel where
  id : String
  inst : Instance
  agent_sock : String
  priv : String
  deriving DecidableEq, Repr

/-- The child process backing a kernel in the local driver: whether it has
been signalled to terminate and whether its exit has been confirmed. -/
structure Proc where
  terminated : Bool
  exited : Bool
  deriving DecidableEq, Repr

/-- State of a `LocalDriver`: its in-memory map from kernel id to the process
handle (`self.agents`, initialised empty). -/
structure LocalDriverState where
  agents : List (String × Proc)
  deriving DecidableEq, Repr

/-- The steps `LocalDriver.destroy_kernel` performs on the process and the
registry: signal termination, wait for exit confirmation, delete the registry
entry. -/
inductive KAction where
  | terminate (kid : String)
  | waitExit (kid : String)
  | removeEntry (kid : String)
  deriving DecidableEq, Repr

/-- Result of running `LocalDriver.destroy_kernel`: the returned-or-raised
outcome, the final driver state, and the trace of steps with the driver state
right after each step. -/
structure KRun where
  result : Except PyError Unit
  final : LocalDriverState
  trace : List (KAction × LocalDriverState)
  deriving Repr

/-- `LocalDriver.destroy_kernel(kernel)`: look up the process handle under
`kernel.id` (a missing key raises `KeyError` before any mutation), signal it
to terminate, wait for its exit to be confirmed, and only then delete the
registry entry. -/
def LocalDriver.destroy_kernel (st : LocalDriverState) (k : Kernel) : KRun :=
  match dlookup st.agents k.id with
  | none => { result := Except.error (PyError.keyError k.id), final := st, trace := [] }
  | some p =>
      let st1 : LocalDriverState :=
        ⟨dinsert st.agents k.id { p with terminated := true }⟩
      let st2 : LocalDriverState :=
        ⟨dinsert st1.agents k.id { p with terminated := true, exited := true }⟩
      let st3 : LocalDriverState := ⟨ddelete st2.agents k.id⟩
      { result := Except.ok ()
        final := st3
        trace := [(KAction.terminate k.id, st1), (KAction.waitExit k.id, st2),
                  (KAction.removeEntry k.id, st3)] }

/-- Number of registry removals in a `destroy_kernel` trace. -/
def countRemove (tr : List (KAction × LocalDriverState)) : Nat :=
  tr.countP fun a =>
    match a.1 with
    | KAction.removeEntry _ => true
    | _ => false

theorem destroy_kernel_not_found (st : LocalDriverState) (k : Kernel)
    (h : dlookup st.agents k.id = none) :
    LocalDriver.destroy_kernel st k =
      { result := Except.error (PyError.keyError k.id), final := st, trace := [] } := by
  simp [LocalDriver.destroy_kernel, h]

/-- C3: once `destroy_kernel` has succeeded for a kernel, a second call for
the same kernel yields the well-defined not-found result `KeyError` raised by
the registry lookup, and it leaves the registry exactly as the first call
left it. -/
theorem C3_second_destroy_not_found (st : LocalDriverState) (k : Kernel)
    (h : (LocalDriver.destroy_kernel st k).result = Except.ok ()) :
    (LocalDriver.destroy_kernel (LocalDriver.destroy_kernel st k).final k).result =
      Except.error (PyError.keyError k.id)
    ∧ (LocalDriver.destroy_kernel (LocalDriver.destroy_kernel st k).final k).final =
      (LocalDriver.destroy_kernel st k).final := by
  cases hl : dlookup st.agents k.id with
  | none => simp [LocalDriver.destroy_kernel, hl] at h
  | some p =>
      have hfin : (LocalDriver.destroy_kernel st k).final =
          ⟨ddelete (dinsert (dinsert st.agents k.id { p with terminated := true })
            k.id { p with terminated := true, exited := true }) k.id⟩ := by
        simp [LocalDriver.destroy_kernel, hl]
      have hmiss : dlookup (LocalDriver.destroy_kernel st k).final.agents k.id = none := by
        rw [hfin]
        exact dlookup_ddelete _ _
      rw [destroy_kernel_not_found _ _ hmiss]
      exact ⟨rfl, rfl⟩

/-- Witness for C3 on a registry holding one live kernel. -/
theorem C3_second_destroy_not_found_witness :
    (LocalDriver.destroy_kernel
      (LocalDriver.destroy_kernel ⟨[("local/u1", ⟨false, false⟩)]⟩
        ⟨"local/u1", ⟨"127.0.0.1", 0⟩, "tcp://127.0.0.1:5002", ""⟩).final
      ⟨"local/u1", ⟨"127.0.0.1", 0⟩, "tcp://127.0.0.1:5002", ""⟩).result =
      Except.error (PyError.keyError "local/u1") :=
  (C3_second_destroy_not_found ⟨[("local/u1", ⟨false, false⟩)]⟩
    ⟨"local/u1", ⟨"127.0.0.1", 0⟩, "tcp://127.0.0.1:5002", ""⟩ rfl).1

/-- C4: for a kernel present in the registry, `destroy_kernel` signals
termination, then waits for exit confirmation, and only then removes the
registry entry: the entry is still present after the terminate step, still
present (with the process confirmed exited) after the wait step, and gone
exactly after the remove step; the removal happens exactly once, at the
successful end of the teardown. -/
theorem C4_destroy_ordering (st : LocalDriverState) (k : Kernel) (p : Proc)
    (h : dlookup st.agents k.id = some p) :
    ∃ s1 s2 s3,
      (LocalDriver.destroy_kernel st k).trace =
        [(KAction.terminate k.id, s1), (KAction.waitExit k.id, s2),
         (KAction.removeEntry k.id, s3)]
      ∧ (dlookup s1.agents k.id).isSome = true
      ∧ (∃ q, dlookup s2.agents k.id = some q ∧ q.exited = true)
      ∧ dlookup s3.agents k.id = none
      ∧ countRemove (LocalDriver.destroy_kernel st k).trace = 1
      ∧ (LocalDriver.destroy_kernel st k).result = Except.ok ()
      ∧ (LocalDriver.destroy_kernel st k).final = s3 := by
  refine ⟨⟨dinsert st.agents k.id { p with terminated := true }⟩,
    ⟨dinsert (dinsert st.agents k.id { p with terminated := true }) k.id
      { p with terminated := true, exited := true }⟩,
    ⟨ddelete (dinsert (dinsert st.agents k.id { p with terminated := true }) k.id
      { p with terminated := true, exited := true }) k.id⟩, ?_, ?_, ?_, ?_, ?_, ?_, ?_⟩
  · simp [LocalDriver.destroy_kernel, h]
  · simp [dlookup_dinsert]
  · exact ⟨{ p with terminated := true, exited := true }, dlookup_dinsert _ _ _, rfl⟩
  · exact dlookup_ddelete _ _
  · simp [LocalDriver.destroy_kernel, h, countRemove]
  · simp [LocalDriver.destroy_kernel, h]
  · simp [LocalDriver.destroy_kernel, h]

/-- Witness for C4 on a registry holding one live kernel. -/
theorem C4_destroy_ordering_witness :
    ∃ s1 s2 s3,
      (LocalDriver.destroy_kernel ⟨[("local/u1", ⟨false, false⟩)]⟩
        ⟨"local/u1", ⟨"127.0.0.1", 0⟩, "tcp://127.0.0.1:5002", ""⟩).trace =
        [(KAction.terminate "local/u1", s1), (KAction.waitExit "local/u1", s2),
         (KAction.removeEntry "local/u1", s3)]
      ∧ (dlookup s1.agents "local/u1").isSome = true
      ∧ (∃ q, dlookup s2.agents "local/u1" = some q ∧ q.exited = true)
      ∧ dlookup s3.agents "local/u1" = none
      ∧ countRemove (LocalDriver.destroy_kernel ⟨[("local/u1", ⟨false, false⟩)]⟩
          ⟨"local/u1", ⟨"127.0.0.1", 0⟩, "tcp://127.0.0.1:5002", ""⟩).trace = 1
      ∧ (LocalDriver.destroy_kernel ⟨[("local/u1", ⟨false, false⟩)]⟩
          ⟨"local/u1", ⟨"127.0.0.1", 0⟩, "tcp://127.0.0.1:5002", ""⟩).result = Except.ok ()
      ∧ (LocalDriver.destroy_kernel ⟨[("local/u1", ⟨false, false⟩)]⟩
          ⟨"local/u1", ⟨"127.0.0.1", 0⟩, "tcp://127.0.0.1:5002", ""⟩).final = s3 :=
  C4_destroy_ordering ⟨[("local/u1", ⟨false, false⟩)]⟩
    ⟨"local/u1", ⟨"127.0.0.1", 0⟩, "tcp://127.0.0.1:5002", ""⟩ ⟨false, false⟩ rfl

/-! ## Kernel creation and instance lifecycle -/

/-- Modelled fresh-name supply for the external `uuid.uuid4()` generator (the
`uuid` module is outside this repository): each draw consumes the supply
counter and yields a string distinct from every other draw. -/
def uuid4 (supply : Nat) : String × Nat :=
  (String.mk (List.replicate (supply + 1) 'u'), supply + 1)

/-- `LocalDriver.create_kernel(instance, agent_port)`: build the kernel id
`local/<uuid>`, spawn the agent child process, set the agent socket to
`tcp://<instance.ip>:<agent_port>` and record the process handle under the
kernel id. -/
def LocalDriver.create_kernel (st : LocalDriverState) (supply : Nat)
    (inst : Instance) (agent_port : Nat) : Kernel × LocalDriverState × Nat :=
  let r := uuid4 supply
  let kernel_id := "local/" ++ r.1
  let proc : Proc := ⟨false, false⟩
  let kernel : Kernel :=
    { id := kernel_id
      inst := inst
      agent_sock := "tcp://" ++ inst.ip ++ ":" ++ toString agent_port
      priv := "" }
  (kernel, ⟨dinsert st.agents kernel_id proc⟩, r.2)

/-- `AWSDockerDriver.create_kernel(instance, agent_port)`: the driver module
never imports `docker`, so the very first statement of the body,
`docker.Client(...)`, raises `NameError` on every call.  The remainder of the
body — container creation, the `docker-<instance.ip>/<container id>` kernel
id, the container id kept as the private handle, and the agent socket
assignment `tcp://<instance.ip>:<agent_port>` — is unreachable. -/
def AWSDockerDriver.create_kernel (inst : Instance) (agent_port : Nat) :
    Except PyError Kernel :=
  Except.error (PyError.nameError "docker")

/-- C8 fails on the cloud variant: evaluating `AWSDockerDriver.create_kernel`
at a concrete instance and port yields the unconditional `NameError` on the
unbound name `docker`, so no kernel and no agent-socket address are ever
produced, while the local variant does return the claimed
`tcp://<instance.ip>:<agent_port>` address. -/
theorem C8_aws_create_kernel_name_error :
    AWSDockerDriver.create_kernel ⟨"1.2.3.4", 2375⟩ 5003 =
      Except.error (PyError.nameError "docker")
    ∧ (LocalDriver.create_kernel ⟨[]⟩ 0 ⟨"127.0.0.1", 0⟩ 5003).1.agent_sock =
      "tcp://127.0.0.1:5003" :=
  ⟨rfl, rfl⟩

/-- `LocalDriver.launch_instance()`: no real provisioning happens; a fresh
uuid becomes the instance id, paired with the loopback address.  The body has
no failure path, embedded as always returning `Except.ok`. -/
def LocalDriver.launch_instance (supply : Nat) :
    Except PyError ((String × String) × Nat) :=
  let r := uuid4 supply
  Except.ok ((r.1, "127.0.0.1"), r.2)

/-- Identifiers returned by `n` successive `launch_instance` calls threading
the uuid supply. -/
def launchIds (supply : Nat) : Nat → List String
  | 0 => []
  | n + 1 =>
      match LocalDriver.launch_instance supply with
      | Except.ok ((inst_id, _), s2) => inst_id :: launchIds s2 n
      | Except.error _ => []

theorem mem_launchIds_length (n : Nat) :
    ∀ supply s, s ∈ launchIds supply n → supply + 1 ≤ s.length := by
  induction n with
  | zero => intro supply s h; simp [launchIds] at h
  | succ m ih =>
      intro supply s h
      simp only [launchIds, LocalDriver.launch_instance, uuid4, List.mem_cons] at h
      rcases h with h | h
      · subst h
        simp [String.length]
      · have := ih (supply + 1) s h
        omega

/-- C9: every `launch_instance` call of the local driver succeeds and returns
the loopback address `127.0.0.1`, and any number of successive calls return
pairwise distinct instance identifiers. -/
theorem C9_launch_local (supply : Nat) :
    (∃ r, LocalDriver.launch_instance supply = Except.ok r ∧ r.1.2 = "127.0.0.1")
    ∧ ∀ n, (launchIds supply n).Nodup := by
  constructor
  · exact ⟨(((uuid4 supply).1, "127.0.0.1"), (uuid4 supply).2), rfl, rfl⟩
  · intro n
    induction n generalizing supply with
    | zero => simp [launchIds]
    | succ m ih =>
        simp only [launchIds, LocalDriver.launch_instance, uuid4]
        refine List.nodup_cons.mpr ⟨fun hmem => ?_, ih (supply + 1)⟩
        have := mem_launchIds_length m (supply + 1) _ hmem
        simp [String.length] at this

/-- `LocalDriver.destroy_instance(inst_id)`: the body is `pass` — it succeeds
for any instance id and touches nothing. -/
def LocalDriver.destroy_instance (st : LocalDriverState) (inst_id : String) :
    Except PyError LocalDriverState :=
  Except.ok st

/-- C10: `destroy_instance` of the local driver succeeds for every instance
id, including ids never launched or already destroyed, raises nothing, and
returns the driver state unchanged (in particular the kernel registry). -/
theorem C10_destroy_instance_noop (st : LocalDriverState) (inst_id : String) :
    LocalDriver.destroy_instance st inst_id = Except.ok st :=
  rfl

/-! ## Driver factory (`create_driver`) -/

/-- The driver classes appearing in `_driver_type_to_class`. -/
inductive DriverClass where
  | localCls
  | awsDockerCls
  deriving DecidableEq, Repr

/-- A constructed driver instance: `LocalDriver()` starts with an empty
agents registry, `AWSDockerDriver()` carries no registry of its own. -/
inductive DriverInstance where
  | localDriver (st : LocalDriverState)
  | awsDockerDriver
  deriving DecidableEq, Repr

/-- The module-level dict `_driver_type_to_class`, keyed by backend name. -/
def driver_type_to_class (name : String) : Option DriverClass :=
  if name = "local" then some DriverClass.localCls
  else if name = "aws_docker" then some DriverClass.awsDockerCls
  else none

/-- Class construction `cls()` for the two entries of the dict. -/
def constructDriver : DriverClass → DriverInstance
  | DriverClass.localCls => DriverInstance.localDriver ⟨[]⟩
  | DriverClass.awsDockerCls => DriverInstance.awsDockerDriver

/-- `create_driver(name)`: look the name up in `_driver_type_to_class` (a
missing key raises `KeyError`) and construct the class. -/
def create_driver (name : String) : Except PyError DriverInstance :=
  match driver_type_to_class name with
  | none => Except.error (PyError.keyError name)
  | some cls => Except.ok (constructDriver cls)

/-- Counterexample to C2 as stated: the recognized set is not
`{local, cloud}` — the name `cloud` is rejected with a `KeyError` (there is
no `ConfigurationError` anywhere in the source), while `aws_docker`, outside
the claimed set, is accepted. -/
theorem C2_counterexample_cloud :
    create_driver "cloud" = Except.error (PyError.keyError "cloud")
    ∧ create_driver "aws_docker" = Except.ok DriverInstance.awsDockerDriver :=
  ⟨rfl, rfl⟩

/-- C2 as amended: `create_driver(name)` returns a constructed driver exactly
for the closed set of names `local` and `aws_docker`; every other name fails
with a `KeyError` on the backend-name dict. -/
theorem C2_create_driver_closed_set (name : String) :
    (name = "local" ∨ name = "aws_docker" →
      ∃ d, create_driver name = Except.ok d)
    ∧ (name ≠ "local" → name ≠ "aws_docker" →
      create_driver name = Except.error (PyError.keyError name)) := by
  constructor
  · rintro (h | h) <;> subst h
    · exact ⟨DriverInstance.localDriver ⟨[]⟩, rfl⟩
    · exact ⟨DriverInstance.awsDockerDriver, rfl⟩
  · intro h1 h2
    simp [create_driver, driver_type_to_class, h1, h2]

/-- Witness for C2 as amended, at the recognized name `local` and the
unrecognized name `cloud`. -/
theorem C2_create_driver_closed_set_witness :
    (∃ d, create_driver "local" = Except.ok d)
    ∧ create_driver "cloud" = Except.error (PyError.keyError "cloud") :=
  ⟨(C2_create_driver_closed_set "local").1 (Or.inl rfl),
   (C2_create_driver_closed_set "cloud").2 (by decide) (by decide)⟩
